import Mathlib

/-!
Shallow embedding of the IOCB dispatch subsystem of `bacpypes`
(`py34/bacpypes/iocb.py`), and verification of its specified properties.

Python objects become Lean records, the heap becomes an explicit `World`
passed through every operation, and Python exceptions become the error
side of `Except`.  Callbacks stored on a control block are drawn from the
closed set of callback shapes occurring in the module: opaque application
callbacks (`Callback.user`, which only log their invocation),
`IOGroup.group_callback` and `IOChainMixIn.chain_callback`.  Potentially
re-entrant method calls (`trigger` invoked from inside a callback) are
made total with a fuel parameter; exhausting the fuel yields the
distinguished error `PyErr.fuelOut`, which never arises at the recursion
depths reached in this module.
-/

namespace Iocb

/-! ### IOCB states (iocb.py lines 41-45) -/

def IDLE : Nat := 0
def PENDING : Nat := 1
def ACTIVE : Nat := 2
def COMPLETED : Nat := 3
def ABORTED : Nat := 4

/-! ### IOQController states (iocb.py lines 59-61).
Note the source assigns `CTRL_WAITING = 1`, the same value as `CTRL_ACTIVE`. -/

def CTRL_IDLE : Nat := 0
def CTRL_ACTIVE : Nat := 1
def CTRL_WAITING : Nat := 1

/-- Python exception values flowing through the module: attribute-lookup
failures, `RuntimeError(msg)`, `NotImplementedError(msg)`, opaque
application-level exception/error objects (`exc n`), and the artificial
`fuelOut` marking exhaustion of the recursion fuel. -/
inductive PyErr where
  | attributeError (obj attr : String)
  | runtimeError (msg : String)
  | notImplementedError (msg : String)
  | exc (code : Nat)
  | fuelOut
deriving DecidableEq, Repr

/-- A protocol data unit as seen by this module: its source address
(`pduSource`, line 850), whether it is an `Exception` instance
(`isinstance(pdu, Exception)`, lines 784, 863) and an opaque payload.
Messages handed to `complete`/`complete_io` are PDUs. -/
structure PDU where
  pduSource : Nat := 0
  isException : Option PyErr := none
  payload : Nat := 0
deriving DecidableEq, Repr

abbrev Msg := PDU

/-- The behaviour of the `decode()` hook of a chain: either the default
`IOChainMixIn.decode` (lines 293-312) or a derived-class override that
raises a given exception (the family of chains claim C8 is about). -/
inductive DecodeBehavior where
  | base
  | raises (e : PyErr)
deriving DecidableEq, Repr

/-- The `ioController` field of a control block: a plain `IOController`
instance, an `IOQController` instance (identified by a controller id in
the world), or an `IOChainMixIn` object (identified by the id of the
downstream chain block it is mixed into, line 230). -/
inductive CtrlRef where
  | plain
  | qctrl (cid : Nat)
  | chainCtrl (selfId : Nat)
deriving DecidableEq, Repr

/-- An entry of an `ioCallback` list.  `user tag` is an opaque
application callback that records its tag in the world log when invoked;
`groupCB g` is `IOGroup.group_callback` bound to group `g`;
`chainCB selfId dec` is `IOChainMixIn.chain_callback` bound to the chain
object `selfId` with decode behaviour `dec`. -/
inductive Callback where
  | user (tag : Nat)
  | groupCB (g : Nat)
  | chainCB (selfId : Nat) (dec : DecodeBehavior)
deriving DecidableEq, Repr

/-- The instance fields of an `IOCB` set up in `IOCB.__init__`
(lines 94-127) together with the `IOGroup` field `ioMembers` (line 345)
and the `IOChainMixIn` field `ioChain` (line 225), which in Python live
on the same object for the mixed-in classes.  `ioComplete` is the
completion `threading.Event`; `ioTimeout` is `some flag` when a
`FunctionTask` object has been stored (flag: currently scheduled). -/
structure IOCBrec where
  ioState : Nat := IDLE
  ioResponse : Option Msg := none
  ioError : Option PyErr := none
  ioComplete : Bool := false
  ioCallback : List Callback := []
  ioQueue : Option Nat := none
  ioTimeout : Option Bool := none
  ioPriority : Int := 0
  ioController : Option CtrlRef := none
  ioMembers : List Nat := []
  ioChain : Option Nat := none
deriving DecidableEq, Repr

/-- The fields of an `IOQueue` (lines 400-406): the `notempty` event and
the list of `(priority, iocb)` pairs. -/
structure IOQueueRec where
  notempty : Bool := false
  queue : List (Int × Nat) := []
deriving DecidableEq, Repr

/-- The fields of an `IOQController` (lines 591-602); its `ioQueue` is an
embedded `IOQueue`. -/
structure QCtrl where
  state : Nat := CTRL_IDLE
  active_iocb : Option Nat := none
  ioQueue : IOQueueRec := {}
  wait_time : Nat := 0
deriving DecidableEq, Repr

/-- A call posted to the event loop by `deferred(...)` or scheduled via a
`FunctionTask` (lines 686-694, 712): it runs later on the reactor, not
synchronously. -/
inductive DeferredCall where
  | qTrigger (cid : Nat)
  | waitTrigger (cid : Nat)
deriving DecidableEq, Repr

/-- The mutable heap: control blocks and queue-controllers addressed by
id, the `SieveClientController.queues` registry (address to controller
id, line 822), a log of invocations of opaque application callbacks,
and the list of deferred calls posted to the event loop. -/
structure World where
  iocbs : Nat → IOCBrec
  ctrls : Nat → QCtrl
  sieve : List (Nat × Nat) := []
  log : List Nat := []
  deferredQ : List DeferredCall := []

/-- Replace the control block stored at id `i`. -/
def setIocb (w : World) (i : Nat) (r : IOCBrec) : World :=
  { w with iocbs := fun j => if j = i then r else w.iocbs j }

/-- Replace the queue-controller stored at id `c`. -/
def setCtrl (w : World) (c : Nat) (q : QCtrl) : World :=
  { w with ctrls := fun j => if j = c then q else w.ctrls j }

/-- The method names defined on class `IOQueue` (lines 398-496:
`put`, `get`, `remove`, `abort`); used to model Python attribute lookup
at the call `self.ioQueue.Remove(self)` on line 153. -/
def IOQueue.instanceMethods : List String := ["put", "get", "remove", "abort"]

/-- The method names defined on class `IOCB` (lines 94-211:
`add_callback`, `wait`, `trigger`, `complete`, `abort`, `set_timeout`);
used to model Python attribute lookup at `self.Abort` on line 198. -/
def IOCB.instanceMethods : List String :=
  ["add_callback", "wait", "trigger", "complete", "abort", "set_timeout"]

mutual

/-- `IOCB.trigger` (lines 147-163).  If the block is still a member of a
queue the source calls `self.ioQueue.Remove(self)`; class `IOQueue`
defines `remove` but no `Remove`, so Python raises `AttributeError`.
If a timer object is present the source calls
`self.ioTimeout.SuspendTask()`; the `FunctionTask` class (external
`.task` module) is used elsewhere in this file through `suspend_task`
(line 196) and `install_task` (line 201), so that lookup also fails.
Otherwise the completion event is set and every callback in the list is
invoked in order (the callbacks drawn from this module never mutate the
list they are being iterated from). -/
def trigger (fuel : Nat) (w : World) (i : Nat) : Except PyErr World :=
  match fuel with
  | 0 => .error .fuelOut
  | f + 1 =>
    let r := w.iocbs i
    if r.ioQueue.isSome then
      if "Remove" ∈ IOQueue.instanceMethods then .error .fuelOut
      else .error (.attributeError "IOQueue" "Remove")
    else if r.ioTimeout.isSome then
      .error (.attributeError "FunctionTask" "SuspendTask")
    else
      runCallbacks f (setIocb w i { r with ioComplete := true }) r.ioCallback
termination_by (fuel, 0, 0)

/-- The loop `for fn, args, kwargs in self.ioCallback: fn(self, ...)`
at lines 161-163. -/
def runCallbacks (fuel : Nat) (w : World) (cbs : List Callback) :
    Except PyErr World :=
  match cbs with
  | [] => .ok w
  | cb :: rest =>
    match runCallback fuel w cb with
    | .error e => .error e
    | .ok w2 => runCallbacks fuel w2 rest
termination_by (fuel, 2, cbs.length)

/-- One callback invocation.  `user tag` stands for an opaque
application function: it records its tag.  `groupCB g` is
`IOGroup.group_callback` (lines 365-376): if every member of group `g`
has its completion event set, the group state becomes COMPLETED and the
group is triggered, otherwise nothing happens (the for-else loop).
`chainCB selfId dec` is `IOChainMixIn.chain_callback` (lines 245-269):
if the chain reference is gone, return; otherwise run `decode()` — on
success it copies state/response or state/error from the chain object to
the upstream block, on an exception the upstream block is marked ABORTED
with that exception — then the chain reference and the upstream
controller reference are cleared and the upstream block is triggered. -/
def runCallback (fuel : Nat) (w : World) (cb : Callback) :
    Except PyErr World :=
  match cb with
  | .user tag => .ok { w with log := w.log ++ [tag] }
  | .groupCB g =>
    let gr := w.iocbs g
    if gr.ioMembers.all (fun m => (w.iocbs m).ioComplete) then
      trigger fuel (setIocb w g { gr with ioState := COMPLETED }) g
    else
      .ok w
  | .chainCB selfId dec =>
    let s := w.iocbs selfId
    match s.ioChain with
    | none => .ok w
    | some u =>
      let w1 :=
        match dec with
        | .raises e =>
          setIocb w u { w.iocbs u with ioState := ABORTED, ioError := some e }
        | .base =>
          if s.ioState = COMPLETED then
            setIocb w u
              { w.iocbs u with ioState := COMPLETED, ioResponse := s.ioResponse }
          else if s.ioState = ABORTED then
            setIocb w u
              { w.iocbs u with ioState := ABORTED, ioError := s.ioError }
          else
            setIocb w u
              { w.iocbs u with
                ioState := ABORTED
                ioError := some (.runtimeError "invalid state") }
      let w2 := setIocb w1 selfId { w1.iocbs selfId with ioChain := none }
      let w3 := setIocb w2 u { w2.iocbs u with ioController := none }
      trigger fuel w3 u
termination_by (fuel, 1, 0)

end

/-- `IOCB.add_callback` (lines 130-136): append `(fn, args, kwargs)` to
the callback list; if the completion event is already set, call
`trigger` (which re-runs the whole list). -/
def IOCB.add_callback (fuel : Nat) (w : World) (i : Nat) (cb : Callback) :
    Except PyErr World :=
  let r := w.iocbs i
  let w1 := setIocb w i { r with ioCallback := r.ioCallback ++ [cb] }
  if r.ioComplete then trigger fuel w1 i else .ok w1

/-- `IOCB.wait` (lines 139-144) blocks on the completion
`threading.Event`; it returns immediately exactly when the event is
already set. -/
def IOCB.wait_returns_now (r : IOCBrec) : Bool :=
  r.ioComplete

/-- `IOController.complete_io` (lines 554-565): a block already
COMPLETED or ABORTED is left alone; otherwise state becomes COMPLETED,
the response is stored and the block is triggered. -/
def IOController.complete_io (fuel : Nat) (w : World) (i : Nat) (msg : Msg) :
    Except PyErr World :=
  let r := w.iocbs i
  if r.ioState = COMPLETED then .ok w
  else if r.ioState = ABORTED then .ok w
  else
    trigger fuel
      (setIocb w i { r with ioState := COMPLETED, ioResponse := some msg }) i

/-- `IOController.abort_io` (lines 568-579): a block already COMPLETED
or ABORTED is left alone; otherwise state becomes ABORTED, the error is
stored and the block is triggered. -/
def IOController.abort_io (fuel : Nat) (w : World) (i : Nat) (err : PyErr) :
    Except PyErr World :=
  let r := w.iocbs i
  if r.ioState = COMPLETED then .ok w
  else if r.ioState = ABORTED then .ok w
  else
    trigger fuel
      (setIocb w i { r with ioState := ABORTED, ioError := some err }) i

/-- The insertion `self.queue.insert(bisect_left(self.queue, (priority+1,)), item)`
on line 423: `bisect_left` over Python tuple order finds the first index
whose stored priority is at least `priority + 1`, i.e. strictly greater
than `priority`, so the new pair lands after every entry of priority at
most `priority`. -/
def insertByPriority (q : List (Int × Nat)) (p : Int) (i : Nat) :
    List (Int × Nat) :=
  match q with
  | [] => [(p, i)]
  | e :: rest =>
    if p + 1 ≤ e.1 then (p, i) :: e :: rest
    else e :: insertByPriority rest p i

/-- `IOQueue.put` (lines 409-427) for the queue embedded in controller
`qid`: the block must be PENDING (else `RuntimeError`); the pair is
inserted by priority, the block records its queue, the `notempty` event
is set, and whether the queue had been empty is returned. -/
def IOQueue.put (w : World) (qid : Nat) (i : Nat) :
    Except PyErr (World × Bool) :=
  let r := w.iocbs i
  if r.ioState ≠ PENDING then .error (.runtimeError "invalid state transition")
  else
    let c := w.ctrls qid
    let wasempty := ¬ c.ioQueue.notempty
    let q2 : IOQueueRec :=
      { notempty := true, queue := insertByPriority c.ioQueue.queue r.ioPriority i }
    let w1 := setCtrl w qid { c with ioQueue := q2 }
    let w2 := setIocb w1 i { r with ioQueue := some qid }
    .ok (w2, wasempty)

/-- Outcome of `IOQueue.get`: the calling thread can block forever on
the `notempty` event, return `None`, raise, or return a block. -/
inductive GetRes where
  | blockedForever
  | retNone (w : World)
  | raised (e : PyErr)
  | ret (w : World) (i : Nat)

/-- `IOQueue.get` (lines 430-454) for the queue embedded in controller
`qid`.  With `block` false and the event clear it returns `None`.  With
a `delay` it waits up to the delay and returns `None` if the event is
still clear (no other thread can set it in this single-writer model).
With `block` true and no delay it waits on the event: if the event is
clear the wait never returns.  Otherwise the head entry is removed, its
block forgets its queue, and the event is cleared when the queue became
empty. -/
def IOQueue.get (w : World) (qid : Nat) (block : Bool) (delay : Option Nat) :
    GetRes :=
  let c := w.ctrls qid
  if ¬ block ∧ ¬ c.ioQueue.notempty then .retNone w
  else if delay.isSome ∧ ¬ c.ioQueue.notempty then .retNone w
  else if ¬ c.ioQueue.notempty then .blockedForever
  else
    match c.ioQueue.queue with
    | [] => .raised (.runtimeError "IndexError")
    | (_, i) :: rest =>
      let q2 : IOQueueRec := { notempty := rest ≠ [], queue := rest }
      let w1 := setCtrl w qid { c with ioQueue := q2 }
      let w2 := setIocb w1 i { w1.iocbs i with ioQueue := none }
      .ret w2 i

/-- `IOQController.complete_io` (lines 669-694): a block that is not the
currently active one raises `RuntimeError("not the current iocb")`
before anything is touched.  Otherwise the base-class completion runs,
the active slot is cleared, and either the throttling wait state is
entered with a scheduled `_wait_trigger` task, or the controller goes
IDLE and `_trigger` is posted via `deferred`. -/
def IOQController.complete_io (fuel : Nat) (w : World) (cid : Nat) (i : Nat)
    (msg : Msg) : Except PyErr World :=
  if some i ≠ (w.ctrls cid).active_iocb then
    .error (.runtimeError "not the current iocb")
  else
    match IOController.complete_io fuel w i msg with
    | .error e => .error e
    | .ok w1 =>
      let c := w1.ctrls cid
      if c.wait_time ≠ 0 then
        .ok { setCtrl w1 cid { c with active_iocb := none, state := CTRL_WAITING }
              with deferredQ := w1.deferredQ ++ [.waitTrigger cid] }
      else
        .ok { setCtrl w1 cid { c with active_iocb := none, state := CTRL_IDLE }
              with deferredQ := w1.deferredQ ++ [.qTrigger cid] }

/-- `IOQController.abort_io` (lines 697-712): the base-class abort runs
first (possibly transitioning the block); only then, if the block is not
the currently active one, the method simply returns; otherwise the
active slot is cleared, the controller goes IDLE and `_trigger` is
posted via `deferred`. -/
def IOQController.abort_io (fuel : Nat) (w : World) (cid : Nat) (i : Nat)
    (err : PyErr) : Except PyErr World :=
  match IOController.abort_io fuel w i err with
  | .error e => .error e
  | .ok w1 =>
    if some i ≠ (w1.ctrls cid).active_iocb then .ok w1
    else
      let c := w1.ctrls cid
      .ok { setCtrl w1 cid { c with active_iocb := none, state := CTRL_IDLE }
            with deferredQ := w1.deferredQ ++ [.qTrigger cid] }

/-- Outcome of `IOQController.abort`: the idle no-op or the drain loop,
which can leave the calling thread blocked forever inside
`IOQueue.get`. -/
inductive QAbortRes where
  | done (w : World)
  | blockedForever (w : World)
  | raised (e : PyErr)
  | fuelOut

/-- The `while True` loop of `IOQController.abort` (lines 613-621):
`iocb = self.ioQueue.get()` with default arguments (blocking, no
delay), break on a falsy result, otherwise mark the block ABORTED with
the error and trigger it. -/
def IOQController.abortLoop (fuel : Nat) (w : World) (cid : Nat)
    (err : PyErr) : QAbortRes :=
  match fuel with
  | 0 => .fuelOut
  | f + 1 =>
    match IOQueue.get w cid true none with
    | .blockedForever => .blockedForever w
    | .retNone w1 => .done w1
    | .raised e => .raised e
    | .ret w1 i =>
      let r := w1.iocbs i
      let w2 := setIocb w1 i { r with ioState := ABORTED, ioError := some err }
      match trigger (f + 1) w2 i with
      | .error e => .raised e
      | .ok w3 => IOQController.abortLoop f w3 cid err

/-- `IOQController.abort` (lines 605-624): a no-op when the controller
is IDLE, otherwise the drain loop. -/
def IOQController.abort (fuel : Nat) (w : World) (cid : Nat) (err : PyErr) :
    QAbortRes :=
  if (w.ctrls cid).state = CTRL_IDLE then .done w
  else IOQController.abortLoop fuel w cid err

/-- `IOQController.request_io` (lines 627-647): bind the block to this
controller; when the controller is not IDLE mark the block PENDING and
queue it; when IDLE call `process_io`, which on the base class raises
`NotImplementedError` (lines 650-653), caught and routed to
`abort_io`. -/
def IOQController.request_io (fuel : Nat) (w : World) (cid : Nat) (i : Nat) :
    Except PyErr World :=
  let w1 := setIocb w i { w.iocbs i with ioController := some (.qctrl cid) }
  if (w1.ctrls cid).state ≠ CTRL_IDLE then
    let w2 := setIocb w1 i { w1.iocbs i with ioState := PENDING }
    match IOQueue.put w2 cid i with
    | .error e => .error e
    | .ok (w3, _) => .ok w3
  else
    IOQController.abort_io fuel w1 cid i
      (.notImplementedError "IOController must implement process_io()")

/-- `IOCB.complete` (lines 166-176): with an owning controller the call
is delegated to its `complete_io`; an `IOChainMixIn` controller has no
`complete_io` attribute (neither `IOCB` nor the mixin defines one), so
that lookup raises `AttributeError`.  Without a controller the state is
set to COMPLETED and the block is triggered — with no terminal-state
guard. -/
def IOCB.complete (fuel : Nat) (w : World) (i : Nat) (msg : Msg) :
    Except PyErr World :=
  let r := w.iocbs i
  match r.ioController with
  | some .plain => IOController.complete_io fuel w i msg
  | some (.qctrl cid) => IOQController.complete_io fuel w cid i msg
  | some (.chainCtrl _) => .error (.attributeError "IOChain" "complete_io")
  | none =>
    trigger fuel
      (setIocb w i { r with ioState := COMPLETED, ioResponse := some msg }) i

mutual

/-- `IOCB.abort` (lines 179-188): with an owning controller the call is
delegated to its `abort_io`; without one, only a block whose state is
below COMPLETED is transitioned to ABORTED and triggered. -/
def IOCB.abort (fuel : Nat) (w : World) (i : Nat) (err : PyErr) :
    Except PyErr World :=
  let r := w.iocbs i
  match r.ioController with
  | some .plain => IOController.abort_io fuel w i err
  | some (.qctrl cid) => IOQController.abort_io fuel w cid i err
  | some (.chainCtrl sid) =>
    match fuel with
    | 0 => .error .fuelOut
    | f + 1 => IOChainMixIn.abort_io f w sid i err
  | none =>
    if r.ioState < COMPLETED then
      trigger fuel
        (setIocb w i { r with ioState := ABORTED, ioError := some err }) i
    else .ok w
termination_by (fuel, 0)

/-- `IOChainMixIn.abort_io` (lines 272-283): raise
`RuntimeError("broken chain")` unless the aborted block is the one this
chain is chained from, then call the chain object's own `abort`
(`IOCB.abort` on the downstream chain block). -/
def IOChainMixIn.abort_io (fuel : Nat) (w : World) (sid : Nat) (i : Nat)
    (err : PyErr) : Except PyErr World :=
  if (w.iocbs sid).ioChain ≠ some i then .error (.runtimeError "broken chain")
  else IOCB.abort fuel w sid err
termination_by (fuel, 1)

end

/-- The fields established by `IOGroup.__init__` (lines 337-347): after
the plain `IOCB.__init__` the member list is empty, the state is
COMPLETED and the completion event is set. -/
def IOGroup.init : IOCBrec :=
  { ioState := COMPLETED, ioComplete := true, ioMembers := [] }

/-- `IOGroup.add` (lines 350-362): append the member, put the group in
PENDING with the completion event cleared, then register
`group_callback` on the member via `add_callback` (which fires
immediately when the member is already complete). -/
def IOGroup.add (fuel : Nat) (w : World) (g : Nat) (m : Nat) :
    Except PyErr World :=
  let gr := w.iocbs g
  let w1 := setIocb w g
    { gr with ioMembers := gr.ioMembers ++ [m], ioState := PENDING,
              ioComplete := false }
  IOCB.add_callback fuel w1 m (.groupCB g)

/-- The loop `for iocb in self.ioMembers: iocb.abort(err)` of
`IOGroup.abort` (lines 388-389); members are plain `IOCB` instances
here, so each `abort` is `IOCB.abort`. -/
def IOGroup.abortMembers (fuel : Nat) (w : World) (ms : List Nat)
    (err : PyErr) : Except PyErr World :=
  match ms with
  | [] => .ok w
  | m :: rest =>
    match IOCB.abort fuel w m err with
    | .error e => .error e
    | .ok w1 => IOGroup.abortMembers fuel w1 rest err

/-- `IOGroup.abort` (lines 379-391): set the group ABORTED with the
error, abort every member, then trigger the group. -/
def IOGroup.abort (fuel : Nat) (w : World) (g : Nat) (err : PyErr) :
    Except PyErr World :=
  let gr := w.iocbs g
  let w1 := setIocb w g { gr with ioState := ABORTED, ioError := some err }
  match IOGroup.abortMembers fuel w1 ((w1.iocbs g).ioMembers) err with
  | .error e => .error e
  | .ok w2 => trigger fuel w2 g

/-- `IOCB.set_timeout` (lines 191-201).  When a timer object already
exists it is suspended and rescheduled.  Otherwise the source builds
`FunctionTask(self.Abort, err)`: the attribute lookup `self.Abort` runs
first, and class `IOCB` defines `abort` (line 179) but no `Abort`, so
Python raises `AttributeError` before any task is stored. -/
def IOCB.set_timeout (w : World) (i : Nat) (_delay : Nat) (_err : PyErr) :
    Except PyErr World :=
  let r := w.iocbs i
  match r.ioTimeout with
  | some _ => .ok (setIocb w i { r with ioTimeout := some true })
  | none =>
    if "Abort" ∈ IOCB.instanceMethods then
      .ok (setIocb w i { r with ioTimeout := some true })
    else
      .error (.attributeError "IOCB" "Abort")

/-- `self.queues.get(source_address, None)` on line 851: association
lookup in the sieve registry. -/
def lookupQueue (qs : List (Nat × Nat)) (addr : Nat) : Option Nat :=
  match qs with
  | [] => none
  | (a, cid) :: rest => if a = addr then some cid else lookupQueue rest addr

/-- `del self.queues[source_address]` on line 871. -/
def deleteQueue (qs : List (Nat × Nat)) (addr : Nat) : List (Nat × Nat) :=
  match qs with
  | [] => []
  | (a, cid) :: rest =>
    if a = addr then rest else (a, cid) :: deleteQueue rest addr

/-- `SieveClientController.confirmation` (lines 847-871): look up the
per-address controller; return silently when there is none, or when it
has no active block.  Otherwise route the PDU to `abort_io` when it is
an `Exception` instance and to `complete_io` when not, and finally drop
the registry entry when the controller's queue is empty and it has no
active block. -/
def SieveClientController.confirmation (fuel : Nat) (w : World) (pdu : PDU) :
    Except PyErr World :=
  match lookupQueue w.sieve pdu.pduSource with
  | none => .ok w
  | some cid =>
    match (w.ctrls cid).active_iocb with
    | none => .ok w
    | some i =>
      let after : Except PyErr World :=
        match pdu.isException with
        | some e => IOQController.abort_io fuel w cid i e
        | none => IOQController.complete_io fuel w cid i pdu
      match after with
      | .error e => .error e
      | .ok w1 =>
        let c := w1.ctrls cid
        if c.ioQueue.queue = [] ∧ c.active_iocb = none then
          .ok { w1 with sieve := deleteQueue w1.sieve pdu.pduSource }
        else .ok w1

/-! ### Concrete and parametric scenario worlds used by the theorems -/

/-- A heap with default-initialised blocks and controllers everywhere. -/
def emptyWorld : World :=
  { iocbs := fun _ => {}, ctrls := fun _ => {} }

/-- A family of worlds whose block 0 is a terminal control block
(COMPLETED when `b`, else ABORTED) with its completion event set,
registered callbacks `ts.map user`, arbitrary stored response, error,
controller reference and priority, not queued and with no timer. -/
def c1world (b : Bool) (ts : List Nat) (resp : Option Msg) (er : Option PyErr)
    (c : Option CtrlRef) (p : Int) : World :=
  setIocb emptyWorld 0
    { ioState := cond b COMPLETED ABORTED
      ioResponse := resp
      ioError := er
      ioComplete := true
      ioCallback := ts.map .user
      ioPriority := p
      ioController := c }

/-- A fresh block 0 with one registered application callback. -/
def c1cexWorld : World :=
  setIocb emptyWorld 0 { ioCallback := [.user 10] }

/-- Group 0 with the three pending members 1, 2, 3; each member carries
the registered `group_callback`, the group carries one application
callback. -/
def c2world (t : Nat) : World :=
  { emptyWorld with
    iocbs := fun j =>
      if j = 0 then
        { ioState := PENDING, ioMembers := [1, 2, 3], ioCallback := [.user t] }
      else if j ≤ 3 then { ioState := PENDING, ioCallback := [.groupCB 0] }
      else {} }

/-- A terminal block 0 (COMPLETED when `b`, else ABORTED) with stored
response and error, an arbitrary controller reference and registered
callbacks `ts.map user`. -/
def c3world (b : Bool) (ts : List Nat) (c : Option CtrlRef)
    (resp : Option Msg) (er : Option PyErr) : World :=
  setIocb emptyWorld 0
    { ioState := cond b COMPLETED ABORTED
      ioResponse := resp
      ioError := er
      ioComplete := true
      ioCallback := ts.map .user
      ioController := c }

/-- An aborted block 0 (terminal, event set, one callback already
fired) with no owning controller. -/
def c3cexWorld : World :=
  setIocb emptyWorld 0
    { ioState := ABORTED
      ioError := some (.exc 1)
      ioComplete := true
      ioCallback := [.user 5] }

/-- A pending block 0 that is still a member of a queue. -/
def c4world : World :=
  setIocb emptyWorld 0 { ioState := PENDING, ioQueue := some 7 }

/-- Queue controller 0 in the ACTIVE state: block 1 is its active block
and block 2 waits in its queue. -/
def c5world : World :=
  { emptyWorld with
    iocbs := fun j =>
      if j = 1 then { ioState := ACTIVE, ioController := some (.qctrl 0) }
      else if j = 2 then
        { ioState := PENDING
          ioQueue := some 0
          ioController := some (.qctrl 0)
          ioCallback := [.user 21] }
      else {}
    ctrls := fun c =>
      if c = 0 then
        { state := CTRL_ACTIVE
          active_iocb := some 1
          ioQueue := { notempty := true, queue := [(0, 2)] } }
      else {} }

/-- Queue controller 0 busy with block 9; the idle blocks 1, 2, 3, 4
carry priorities 3, 1, 2, 1 and are about to be submitted in that
order. -/
def c6world : World :=
  { emptyWorld with
    iocbs := fun j =>
      if j = 1 then { ioPriority := 3 }
      else if j = 2 then { ioPriority := 1 }
      else if j = 3 then { ioPriority := 2 }
      else if j = 4 then { ioPriority := 1 }
      else {}
    ctrls := fun c =>
      if c = 0 then { state := CTRL_ACTIVE, active_iocb := some 9 } else {} }

/-- The four submissions of claim C6, in order, to the busy
controller 0. -/
def c6requested : Except PyErr World :=
  match IOQController.request_io 3 c6world 0 1 with
  | .error e => .error e
  | .ok w1 =>
    match IOQController.request_io 3 w1 0 2 with
    | .error e => .error e
    | .ok w2 =>
      match IOQController.request_io 3 w2 0 3 with
      | .error e => .error e
      | .ok w3 => IOQController.request_io 3 w3 0 4

/-- Repeatedly call `IOQueue.get` (non-blocking) on controller `cid`
and collect the returned block ids: the dispatch order of the queue. -/
def drainIds (fuel : Nat) (w : World) (cid : Nat) : List Nat :=
  match fuel with
  | 0 => []
  | f + 1 =>
    match IOQueue.get w cid false none with
    | .ret w1 i => i :: drainIds f w1 cid
    | _ => []

/-- Queue controller 5 in the ACTIVE state with active block 1; block 2
is bound to the same controller but is not the active block. -/
def c7world (ts : List Nat) : World :=
  { emptyWorld with
    iocbs := fun j =>
      if j = 1 then { ioState := ACTIVE, ioController := some (.qctrl 5) }
      else if j = 2 then
        { ioState := PENDING
          ioController := some (.qctrl 5)
          ioCallback := ts.map .user }
      else {}
    ctrls := fun c =>
      if c = 5 then { state := CTRL_ACTIVE, active_iocb := some 1 } else {} }

/-- A chain: upstream block 0 (ACTIVE, controlled by the chain object)
and downstream chain block 1 (in state `sdst` with stored response and
error) whose registered `chain_callback` has a `decode()` override that
raises `e`. -/
def c8world (e : PyErr) (ts : List Nat) (sdst : Nat) (resp : Option Msg)
    (der : Option PyErr) : World :=
  { emptyWorld with
    iocbs := fun j =>
      if j = 0 then
        { ioState := ACTIVE
          ioController := some (.chainCtrl 1)
          ioCallback := ts.map .user }
      else if j = 1 then
        { ioState := sdst
          ioResponse := resp
          ioError := der
          ioChain := some 0
          ioCallback := [.chainCB 1 (.raises e)] }
      else {} }

/-- A freshly constructed group at id 0 and a fresh, not yet complete
member block at id 1 (in state `st`, with callbacks `mts.map user`). -/
def c9worldB (st : Nat) (mts : List Nat) : World :=
  { emptyWorld with
    iocbs := fun j =>
      if j = 0 then IOGroup.init
      else if j = 1 then { ioState := st, ioCallback := mts.map .user }
      else {} }

/-- A freshly constructed group at id 0 (with application callbacks
`gts.map user`) and an already terminal member block at id 1 (COMPLETED
when `b`, else ABORTED, event set, callbacks `mts.map user`). -/
def c9worldC (b : Bool) (mts gts : List Nat) : World :=
  { emptyWorld with
    iocbs := fun j =>
      if j = 0 then { IOGroup.init with ioCallback := gts.map .user }
      else if j = 1 then
        { ioState := cond b COMPLETED ABORTED
          ioComplete := true
          ioCallback := mts.map .user }
      else {} }

/-- Fold a list of `(priority, id)` submissions through the insertion
performed by `IOQueue.put`, starting from an empty queue. -/
def putAll (subs : List (Int × Nat)) : List (Int × Nat) :=
  subs.foldl (fun q pi => insertByPriority q pi.1 pi.2) []

/-- Controller 0 whose queue holds `(p, i)` at the head followed by
`rest`, with the `notempty` event set. -/
def c6getWorld (p : Int) (i : Nat) (rest : List (Int × Nat)) : World :=
  { emptyWorld with
    ctrls := fun c =>
      if c = 0 then
        { state := CTRL_ACTIVE
          active_iocb := none
          ioQueue := { notempty := true, queue := (p, i) :: rest } }
      else {} }

/-- View of a `GetRes`: the world and block id of a successful return. -/
def getResView (r : GetRes) : Option (World × Nat) :=
  match r with
  | .ret w i => some (w, i)
  | _ => none

/-- View of a `QAbortRes`: the world at the moment the calling thread
blocks forever inside `IOQueue.get`. -/
def qAbortView (r : QAbortRes) : Option World :=
  match r with
  | .blockedForever w => some w
  | _ => none

/-!
## Theorems
-/

@[simp] theorem setIocb_iocbs_same (w : World) (i : Nat) (r : IOCBrec) :
    (setIocb w i r).iocbs i = r := by
  simp [setIocb]

theorem setIocb_iocbs_other (w : World) (i j : Nat) (r : IOCBrec) (h : j ≠ i) :
    (setIocb w i r).iocbs j = w.iocbs j := by
  simp [setIocb, h]

@[simp] theorem setIocb_ctrls (w : World) (i : Nat) (r : IOCBrec) :
    (setIocb w i r).ctrls = w.ctrls := rfl

@[simp] theorem setIocb_log (w : World) (i : Nat) (r : IOCBrec) :
    (setIocb w i r).log = w.log := rfl

@[simp] theorem setIocb_sieve (w : World) (i : Nat) (r : IOCBrec) :
    (setIocb w i r).sieve = w.sieve := rfl

@[simp] theorem setCtrl_ctrls_same (w : World) (c : Nat) (q : QCtrl) :
    (setCtrl w c q).ctrls c = q := by
  simp [setCtrl]

@[simp] theorem setCtrl_iocbs (w : World) (c : Nat) (q : QCtrl) :
    (setCtrl w c q).iocbs = w.iocbs := rfl

/-- Running a block of opaque application callbacks appends their tags
to the log and changes nothing else; the remaining callbacks then run in
the updated world. -/
theorem runCallbacks_users_append (f : Nat) (w : World) (ts : List Nat)
    (rest : List Callback) :
    runCallbacks f w (ts.map Callback.user ++ rest) =
      runCallbacks f { w with log := w.log ++ ts } rest := by
  induction ts generalizing w with
  | nil => simp
  | cons t ts ih =>
    rw [List.map_cons, List.cons_append]
    rw [show runCallbacks f w (Callback.user t :: (ts.map Callback.user ++ rest))
          = runCallbacks f { w with log := w.log ++ [t] }
              (ts.map Callback.user ++ rest) from by
      simp [runCallbacks, runCallback]]
    rw [ih]
    simp

/-- Special case: a list consisting only of application callbacks. -/
theorem runCallbacks_users (f : Nat) (w : World) (ts : List Nat) :
    runCallbacks f w (ts.map Callback.user) =
      .ok { w with log := w.log ++ ts } := by
  have h := runCallbacks_users_append f w ts []
  rw [List.append_nil] at h
  rw [h]
  simp [runCallbacks]

/-- C1, counterexample.  Block 0 has one callback (tag 10) registered
before completion; completing the block fires it (log `[10]`).  A later
`add_callback` of a fresh callback (tag 11) calls `trigger`, which
re-runs the whole list, so the log becomes `[10, 10, 11]`: callback 10
fires twice, refuting both "every callback is invoked exactly once" and
"calling add_callback on an already-terminal block fires only the newly
added callback". -/
theorem C1_counterexample :
    ((match IOCB.complete 2 c1cexWorld 0 {} with
      | .error e => .error e
      | .ok w1 => IOCB.add_callback 2 w1 0 (.user 11) :
        Except PyErr World)).toOption.map World.log
      = some [10, 10, 11] := by
  simp [IOCB.complete, IOCB.add_callback, c1cexWorld, trigger, runCallbacks,
        runCallback, setIocb, emptyWorld, Except.toOption]

/-- C1, amended.  On a block that is already terminal (COMPLETED or
ABORTED, completion event set, not queued, no timer), `add_callback`
appends the new callback and immediately re-runs the entire callback
list: every previously registered callback fires again, in registration
order, followed by the newly added one.  (Callbacks registered before
completion do fire exactly once, in order, at the completion itself;
the exactly-once part of the claim fails only through this re-run.) -/
theorem C1_amended_add_callback_refires_whole_list (b : Bool) (ts : List Nat)
    (t : Nat) (resp : Option Msg) (er : Option PyErr) (c : Option CtrlRef)
    (p : Int) :
    (IOCB.add_callback 1 (c1world b ts resp er c p) 0 (.user t)).toOption.map
        (fun w => (w.log, (w.iocbs 0).ioCallback)) =
      some (ts ++ [t], ts.map Callback.user ++ [Callback.user t]) := by
  simp [IOCB.add_callback, c1world, trigger, setIocb, emptyWorld,
        Except.toOption, runCallbacks_users_append, runCallbacks, runCallback]

/-- C2, counterexample.  Aborting group 0 with its three pending members
leaves the group in state COMPLETED, not ABORTED: when the last member
aborts, `group_callback` finds all members complete, overwrites the
group state and triggers it, and `IOGroup.abort` then triggers it a
second time — the group callback (tag 7) fires twice. -/
theorem C2_counterexample :
    (IOGroup.abort 6 (c2world 7) 0 (.exc 1)).toOption.map
        (fun w => ((w.iocbs 0).ioState, w.log)) = some (COMPLETED, [7, 7])
    ∧ (COMPLETED == ABORTED) = false := by
  refine ⟨?_, by decide⟩
  simp [IOGroup.abort, IOGroup.abortMembers, IOCB.abort, c2world, trigger,
        runCallbacks, runCallback, setIocb, emptyWorld, Except.toOption,
        IDLE, PENDING, ACTIVE, COMPLETED, ABORTED]

/-- C2, amended.  Aborting a group whose members are all non-terminal
marks the group with the error and aborts every member with that same
error; but the group's own terminal transition is not single: the last
member abort re-enters `group_callback`, which sets the group state to
COMPLETED (overwriting ABORTED) and triggers the group callbacks, and
`IOGroup.abort` triggers them once more, so the group finishes in state
COMPLETED with its error set and its callbacks invoked twice. -/
theorem C2_amended_group_abort (err : PyErr) (t : Nat) :
    (IOGroup.abort 6 (c2world t) 0 err).toOption.map
        (fun w =>
          ((w.iocbs 0).ioState, (w.iocbs 0).ioError, (w.iocbs 0).ioComplete,
           (w.iocbs 1).ioState, (w.iocbs 1).ioError, (w.iocbs 1).ioComplete,
           (w.iocbs 2).ioState, (w.iocbs 2).ioError, (w.iocbs 2).ioComplete,
           (w.iocbs 3).ioState, (w.iocbs 3).ioError, (w.iocbs 3).ioComplete,
           w.log)) =
      some (COMPLETED, some err, true,
            ABORTED, some err, true,
            ABORTED, some err, true,
            ABORTED, some err, true, [t, t]) := by
  simp [IOGroup.abort, IOGroup.abortMembers, IOCB.abort, c2world, trigger,
        runCallbacks, runCallback, setIocb, emptyWorld, Except.toOption,
        IDLE, PENDING, ACTIVE, COMPLETED, ABORTED]

/-- C3, counterexample.  Block 0 is already ABORTED (terminal, event
set, its callback already fired once) and has no owning controller;
calling `complete` on it is not a no-op: the state flips to COMPLETED,
the response is overwritten and the callback fires again. -/
theorem C3_counterexample :
    (c3cexWorld.iocbs 0).ioState = ABORTED
    ∧ (IOCB.complete 2 c3cexWorld 0 { payload := 9 }).toOption.map
        (fun w => ((w.iocbs 0).ioState, (w.iocbs 0).ioResponse, w.log)) =
      some (COMPLETED, some { payload := 9 }, [5])
    ∧ (COMPLETED == ABORTED) = false := by
  refine ⟨by simp [c3cexWorld, setIocb, emptyWorld], ?_, by decide⟩
  simp [IOCB.complete, c3cexWorld, trigger, runCallbacks, runCallback,
        setIocb, emptyWorld, Except.toOption, IDLE, PENDING, ACTIVE,
        COMPLETED, ABORTED]

/-- C3, amended.  A terminal block ignores a further `abort` when it has
no controller, and ignores both `complete_io` and `abort_io` when it is
owned by a plain `IOController` (all three leave the world untouched);
but `complete` on a terminal block with no owning controller is NOT a
no-op: it unconditionally sets the state to COMPLETED, overwrites the
response, and re-runs the callbacks. -/
theorem C3_amended_terminal_idempotence (b : Bool) (ts : List Nat)
    (resp : Option Msg) (er : Option PyErr) (m : Msg) (e2 : PyErr) :
    IOCB.abort 2 (c3world b ts none resp er) 0 e2
        = .ok (c3world b ts none resp er)
    ∧ IOCB.complete 2 (c3world b ts (some .plain) resp er) 0 m
        = .ok (c3world b ts (some .plain) resp er)
    ∧ IOCB.abort 2 (c3world b ts (some .plain) resp er) 0 e2
        = .ok (c3world b ts (some .plain) resp er)
    ∧ (IOCB.complete 2 (c3world b ts none resp er) 0 m).toOption.map
        (fun w => ((w.iocbs 0).ioState, (w.iocbs 0).ioResponse,
                   (w.iocbs 0).ioError, w.log)) =
      some (COMPLETED, some m, er, ts) := by
  refine ⟨?_, ?_, ?_, ?_⟩ <;> cases b <;>
    simp [IOCB.abort, IOCB.complete, IOController.complete_io,
          IOController.abort_io, c3world, trigger, runCallbacks_users,
          runCallbacks, runCallback, setIocb, emptyWorld, Except.toOption,
          IDLE, PENDING, ACTIVE, COMPLETED, ABORTED]

/-- C4, code-bug evaluation.  `trigger` on a block that is still a
member of a queue raises `AttributeError`: line 153 calls
`self.ioQueue.Remove(self)` but class `IOQueue` defines no `Remove`
(only `put`, `get`, `remove`, `abort`).  Likewise `set_timeout` always
raises `AttributeError`: line 198 reads `self.Abort` but class `IOCB`
defines no `Abort` (only `abort`), so no timeout task is ever installed
and completion never has a timer to cancel. -/
theorem C4_code_bug_eval :
    trigger 3 c4world 0 = .error (.attributeError "IOQueue" "Remove")
    ∧ IOCB.set_timeout emptyWorld 0 10 (.exc 2)
        = .error (.attributeError "IOCB" "Abort")
    ∧ IOQueue.instanceMethods.contains "Remove" = false
    ∧ IOCB.instanceMethods.contains "Abort" = false := by
  refine ⟨?_, ?_, by decide, by decide⟩ <;>
    simp [trigger, IOCB.set_timeout, c4world, setIocb, emptyWorld,
          IOQueue.instanceMethods, IOCB.instanceMethods]

/-- C5, code-bug evaluation.  Controller 0 is ACTIVE with active block 1
and one queued block 2.  `IOQController.abort` drains and aborts the
queued block, but the next iteration calls `IOQueue.get()` in blocking
mode on the now-empty queue, so the call never returns: it blocks
forever, and the active block 1 is never aborted (it stays ACTIVE and
remains the active block). -/
theorem C5_code_bug_eval :
    (qAbortView (IOQController.abort 4 c5world 0 (.exc 3))).map
        (fun w => ((w.iocbs 2).ioState, (w.iocbs 2).ioError, w.log,
                   (w.ctrls 0).active_iocb, (w.iocbs 1).ioState,
                   (w.ctrls 0).ioQueue.queue)) =
      some (ABORTED, some (.exc 3), [21], some 1, ACTIVE, []) := by
  simp [IOQController.abort, IOQController.abortLoop, IOQueue.get, qAbortView,
        c5world, trigger, runCallbacks, runCallback, setIocb, setCtrl,
        emptyWorld, Except.toOption, IDLE, PENDING, ACTIVE, COMPLETED,
        ABORTED, CTRL_IDLE, CTRL_ACTIVE]

/-- The bisect insertion places the new pair exactly after every entry
whose priority is at most `p` and before every later entry. -/
theorem insertByPriority_eq (q : List (Int × Nat)) (p : Int) (i : Nat) :
    insertByPriority q p i =
      q.takeWhile (fun e => e.1 ≤ p) ++ (p, i) :: q.dropWhile (fun e => e.1 ≤ p) := by
  induction q with
  | nil => simp [insertByPriority]
  | cons e rest ih =>
    by_cases h : p + 1 ≤ e.1
    · have h2 : ¬ (e.1 ≤ p) := by omega
      simp [insertByPriority, h, h2, List.takeWhile_cons, List.dropWhile_cons]
    · have h2 : e.1 ≤ p := by omega
      simp [insertByPriority, h, h2, List.takeWhile_cons, List.dropWhile_cons, ih]

/-- Membership in the queue after a bisect insertion. -/
theorem mem_insertByPriority (q : List (Int × Nat)) (p : Int) (i : Nat)
    (x : Int × Nat) :
    x ∈ insertByPriority q p i ↔ x = (p, i) ∨ x ∈ q := by
  induction q with
  | nil => simp [insertByPriority]
  | cons e rest ih =>
    by_cases h : p + 1 ≤ e.1 <;> (simp [insertByPriority, h, ih]; try tauto)

/-- The bisect insertion keeps the queue sorted by ascending priority. -/
theorem insertByPriority_pairwise (q : List (Int × Nat)) (p : Int) (i : Nat)
    (h : q.Pairwise (fun a b => a.1 ≤ b.1)) :
    (insertByPriority q p i).Pairwise (fun a b => a.1 ≤ b.1) := by
  induction q with
  | nil => simp [insertByPriority]
  | cons e rest ih =>
    rw [List.pairwise_cons] at h
    by_cases hc : p + 1 ≤ e.1
    · rw [insertByPriority]
      simp only [if_pos hc, List.pairwise_cons, List.mem_cons]
      refine ⟨fun x hx => ?_, h.1, h.2⟩
      rcases hx with rfl | hx2
      · omega
      · exact le_trans (by omega : p ≤ e.1) (h.1 x hx2)
    · rw [insertByPriority]
      simp only [if_neg hc, List.pairwise_cons]
      refine ⟨fun x hx => ?_, ih h.2⟩
      rcases (mem_insertByPriority rest p i x).mp hx with rfl | hx2
      · simp; omega
      · exact h.1 x hx2

/-- Folding submissions into a sorted queue keeps it sorted. -/
theorem foldl_insert_pairwise (subs : List (Int × Nat)) (q : List (Int × Nat))
    (h : q.Pairwise (fun a b => a.1 ≤ b.1)) :
    (subs.foldl (fun q pi => insertByPriority q pi.1 pi.2) q).Pairwise
      (fun a b => a.1 ≤ b.1) := by
  induction subs generalizing q with
  | nil => exact h
  | cons s rest ih => exact ih _ (insertByPriority_pairwise _ _ _ h)

/-- C6.  The priority-queue invariant of `IOQueue.put`/`IOQueue.get`:
(1) the bisect insertion of line 423 puts a new block after every queued
entry of priority at most its own and before every strictly greater one,
so equal-priority blocks keep submission (FIFO) order; (2) any sequence
of insertions starting from the empty queue yields a queue sorted by
ascending priority; (3) `get` removes and returns the head of the queue;
(4) concretely, blocks 1, 2, 3, 4 submitted in that order with
priorities 3, 1, 2, 1 to the busy controller 0 end up queued as
[(1,2), (1,4), (2,3), (3,1)] and are dispatched in the order 2, 4, 3, 1,
i.e. by priorities 1, 1, 2, 3 with FIFO order inside the equal-priority
tier. -/
theorem C6_priority_queue_invariant :
    (∀ (q : List (Int × Nat)) (p : Int) (i : Nat),
      insertByPriority q p i =
        q.takeWhile (fun e => e.1 ≤ p) ++ (p, i) :: q.dropWhile (fun e => e.1 ≤ p))
    ∧ (∀ subs : List (Int × Nat),
        (putAll subs).Pairwise (fun a b => a.1 ≤ b.1))
    ∧ (∀ (p : Int) (i : Nat) (rest : List (Int × Nat)),
        (getResView (IOQueue.get (c6getWorld p i rest) 0 true none)).map
            (fun wi => (wi.2, (wi.1.ctrls 0).ioQueue.queue)) = some (i, rest))
    ∧ c6requested.toOption.map
        (fun w => ((w.ctrls 0).ioQueue.queue, drainIds 9 w 0)) =
      some ([(1, 2), (1, 4), (2, 3), (3, 1)], [2, 4, 3, 1]) := by
  refine ⟨insertByPriority_eq, fun subs => foldl_insert_pairwise subs [] (by simp),
          fun p i rest => ?_, ?_⟩
  · simp [IOQueue.get, getResView, c6getWorld, setIocb, setCtrl, emptyWorld]
  · simp [c6requested, IOQController.request_io, IOQueue.put, IOQueue.get,
          insertByPriority, drainIds, c6world, setIocb, setCtrl, emptyWorld,
          Except.toOption, IDLE, PENDING, ACTIVE, COMPLETED, ABORTED,
          CTRL_IDLE, CTRL_ACTIVE]

/-- C7, counterexample.  Block 2 is bound to controller 5 but is not its
active block (block 1 is).  `IOQController.abort_io` on block 2 does NOT
raise: it returns normally, and the block is transitioned to ABORTED
with its callback fired — the base-class abort runs before the
active-block check, which merely returns. -/
theorem C7_counterexample :
    (IOQController.abort_io 3 (c7world [9]) 5 2 (.exc 9)).toOption.map
        (fun w => ((w.iocbs 2).ioState, (w.iocbs 2).ioError, w.log)) =
      some (ABORTED, some (.exc 9), [9]) := by
  simp [IOQController.abort_io, IOController.abort_io, c7world, trigger,
        runCallbacks, runCallback, setIocb, setCtrl, emptyWorld,
        Except.toOption, IDLE, PENDING, ACTIVE, COMPLETED, ABORTED,
        CTRL_IDLE, CTRL_ACTIVE]

/-- C7, amended.  On a serializing controller, `complete_io` with a
block that is not the currently active one raises
`RuntimeError("not the current iocb")` before touching anything; but
`abort_io` with such a block first runs the base-class abort — which
transitions the (non-terminal, unqueued) block to ABORTED with the error
and fires its callbacks — and only then notices the mismatch and
returns without raising; the controller itself (state, active slot,
deferred work) is unchanged in both cases. -/
theorem C7_amended_mismatch (ts : List Nat) (m : Msg) (e : PyErr) :
    IOQController.complete_io 3 (c7world ts) 5 2 m
        = .error (.runtimeError "not the current iocb")
    ∧ (IOQController.abort_io 3 (c7world ts) 5 2 e).toOption.map
        (fun w => ((w.iocbs 2).ioState, (w.iocbs 2).ioError, w.log,
                   (w.ctrls 5).state, (w.ctrls 5).active_iocb, w.deferredQ)) =
      some (ABORTED, some e, ts, CTRL_ACTIVE, some 1, []) := by
  constructor
  · simp [IOQController.complete_io, c7world, setIocb, setCtrl, emptyWorld,
          CTRL_ACTIVE, CTRL_IDLE]
  · simp [IOQController.abort_io, IOController.abort_io, c7world, trigger,
          runCallbacks_users, runCallbacks, runCallback, setIocb, setCtrl,
          emptyWorld, Except.toOption, IDLE, PENDING, ACTIVE, COMPLETED,
          ABORTED, CTRL_IDLE, CTRL_ACTIVE]

/-- C8.  A chain whose `decode()` override raises `e`: whether the
downstream chain block (block 1) is completed with a message or aborted
with some other error, the upstream block (block 0) ends ABORTED with
exactly `e` as its error, its completion event set, its controller
reference cleared, the chain reference broken, and its callbacks fired
exactly once — regardless of the downstream outcome. -/
theorem C8_decode_exception_aborts_upstream (e : PyErr) (ts : List Nat)
    (sdst : Nat) (resp : Option Msg) (der : Option PyErr) (m : Msg)
    (e2 : PyErr) :
    (IOCB.complete 3 (c8world e ts sdst resp der) 1 m).toOption.map
        (fun w => ((w.iocbs 0).ioState, (w.iocbs 0).ioError,
                   (w.iocbs 0).ioComplete, (w.iocbs 0).ioController,
                   (w.iocbs 1).ioChain, w.log)) =
      some (ABORTED, some e, true, none, none, ts)
    ∧ (IOCB.abort 3 (c8world e ts ACTIVE resp der) 1 e2).toOption.map
        (fun w => ((w.iocbs 0).ioState, (w.iocbs 0).ioError,
                   (w.iocbs 0).ioComplete, (w.iocbs 0).ioController,
                   (w.iocbs 1).ioChain, w.log)) =
      some (ABORTED, some e, true, none, none, ts) := by
  constructor <;>
    simp [IOCB.complete, IOCB.abort, c8world, trigger,
          runCallbacks_users, runCallbacks, runCallback, setIocb,
          emptyWorld, Except.toOption, IDLE, PENDING, ACTIVE, COMPLETED,
          ABORTED]

/-- C9.  A freshly constructed group is already COMPLETED with its
completion event set, so `wait` returns immediately; adding a fresh
(not yet complete) member moves the group to PENDING with the event
cleared and registers `group_callback` on the member; and adding an
already-terminal member to a group whose members are then all terminal
brings the group straight back to COMPLETED with the event set, the
member and group callbacks having fired. -/
theorem C9_group_lifecycle (st : Nat) (mts gts : List Nat) (b : Bool) :
    IOGroup.init.ioState = COMPLETED
    ∧ IOGroup.init.ioComplete = true
    ∧ IOCB.wait_returns_now IOGroup.init = true
    ∧ (IOGroup.add 2 (c9worldB st mts) 0 1).toOption.map
        (fun w => ((w.iocbs 0).ioState, (w.iocbs 0).ioComplete,
                   (w.iocbs 0).ioMembers, (w.iocbs 1).ioCallback)) =
      some (PENDING, false, [1], mts.map Callback.user ++ [Callback.groupCB 0])
    ∧ (IOGroup.add 3 (c9worldC b mts gts) 0 1).toOption.map
        (fun w => ((w.iocbs 0).ioState, (w.iocbs 0).ioComplete, w.log)) =
      some (COMPLETED, true, mts ++ gts) := by
  refine ⟨rfl, rfl, rfl, ?_, ?_⟩ <;>
    simp [IOGroup.add, IOGroup.init, IOCB.add_callback, IOCB.wait_returns_now,
          c9worldB, c9worldC, trigger, runCallbacks_users_append,
          runCallbacks_users, runCallbacks, runCallback, setIocb, emptyWorld,
          Except.toOption, IDLE, PENDING, ACTIVE, COMPLETED, ABORTED]

/-- C10.  A confirmation whose source address has no entry in the sieve
registry, or whose per-address controller has no active block, is
silently dropped: `confirmation` returns the world unchanged (no
exception, no block transition, registry untouched). -/
theorem C10_confirmation_dropped (w : World) (pdu : PDU)
    (h : lookupQueue w.sieve pdu.pduSource = none
         ∨ ∃ cid, lookupQueue w.sieve pdu.pduSource = some cid
             ∧ (w.ctrls cid).active_iocb = none) :
    SieveClientController.confirmation 3 w pdu = .ok w := by
  rcases h with h | ⟨cid, h1, h2⟩
  · simp [SieveClientController.confirmation, h]
  · simp [SieveClientController.confirmation, h1, h2]

/-- C10, witness: a world with an empty sieve registry drops any
confirmation unchanged. -/
theorem C10_confirmation_dropped_witness :
    SieveClientController.confirmation 3 emptyWorld { pduSource := 5 }
      = .ok emptyWorld :=
  C10_confirmation_dropped emptyWorld { pduSource := 5 } (Or.inl rfl)

end Iocb
